import Mathlib

/-!
Shallow embedding of the credential-lifecycle engine of the CLIProxyAPIPlus
repository: the per-token rate limiter (`internal/usage/stats.go`), the Kiro
OAuth refresh helpers (`RefreshWithGracefulDegradation`, `IsTokenExpiringSoon`,
`DefaultRefreshConfig`), the background refresher's `refreshSingle`, the AWS
Builder ID device-code polling loop (`sso_oidc.go`), and the management
model-availability listing.

Modelling conventions:
* `time.Time` and `time.Duration` are nanosecond counts (`Int`); Go's zero
  time is `0`.  `t.After(u)` is `u < t`, `t.Before(u)` is `t < u`.
* Go float arithmetic (`math.Pow`, jitter factors) is modelled exactly over
  `ℚ`; the conversion `time.Duration(float64)` truncates toward zero and is
  modelled by `truncRat`.
* `time.Sleep` in a sequential execution advances the clock by exactly the
  slept duration; random samples (`rng.Int63n`, `rng.Float64()*2-1`) are
  passed in as explicit parameters.
* The per-key state map and its mutex are elided: each function acts on the
  `TokenState` stored under the addressed token key.
* Go `strings.ToLower` is modelled by ASCII per-character lowering (all
  keywords involved are ASCII).
-/

namespace KiroModel

/-- Nanoseconds per second (`time.Second`). -/
def nsPerSec : Int := 1000000000

/-- Nanoseconds per minute (`time.Minute`). -/
def nsPerMin : Int := 60 * nsPerSec

/-- Nanoseconds per hour (`time.Hour`). -/
def nsPerHour : Int := 60 * nsPerMin

/-- Nanoseconds per day (`24 * time.Hour`). -/
def nsPerDay : Int := 24 * nsPerHour

/-- Go's conversion `time.Duration(x)` of a `float64` truncates toward zero;
on a rational `num/den` (den positive) that is `Int.tdiv`. -/
def truncRat (q : ℚ) : Int := q.num.tdiv q.den

/-- Model of `TokenState` from `internal/usage/stats.go`. -/
structure TokenState where
  lastRequest : Int
  requestCount : Int
  cooldownEnd : Int
  failCount : Int
  dailyRequests : Int
  dailyResetTime : Int
  isSuspended : Bool
  suspendedAt : Int
  suspendReason : String
deriving Repr, DecidableEq

/-- The configurable fields of `RateLimiter` (`internal/usage/stats.go`). -/
structure RateLimiterConfig where
  minTokenInterval : Int
  maxTokenInterval : Int
  dailyMaxRequests : Int
  jitterPercent : ℚ
  backoffBase : Int
  backoffMax : Int
  backoffMultiplier : ℚ
  suspendCooldown : Int
deriving Repr, DecidableEq

/-- Defaults installed by `NewRateLimiter` (`DefaultMinTokenInterval` etc.). -/
def defaultRateLimiterConfig : RateLimiterConfig :=
  { minTokenInterval := 1 * nsPerSec
    maxTokenInterval := 2 * nsPerSec
    dailyMaxRequests := 500
    jitterPercent := (3 : ℚ) / 10
    backoffBase := 30 * nsPerSec
    backoffMax := 5 * nsPerMin
    backoffMultiplier := (3 : ℚ) / 2
    suspendCooldown := nsPerHour }

/-- Model of `time.Now().Truncate(24 * time.Hour)`: round down to a multiple of a day
since the zero time (Go `Time.Truncate` rounds down). -/
def truncDay (t : Int) : Int := t - t % nsPerDay

/-- Model of `RateLimiter.getOrCreateState`: the fresh state installed for an unknown
token key — all fields zero except `DailyResetTime`, which is set to
`time.Now().Truncate(24*time.Hour).Add(24*time.Hour)`. -/
def newTokenState (now : Int) : TokenState :=
  { lastRequest := 0
    requestCount := 0
    cooldownEnd := 0
    failCount := 0
    dailyRequests := 0
    dailyResetTime := truncDay now + nsPerDay
    isSuspended := false
    suspendedAt := 0
    suspendReason := "" }

/-- Model of `RateLimiter.resetDailyIfNeeded`: when `now.After(state.DailyResetTime)`,
zero the daily counter and advance the boundary. -/
def resetDailyIfNeeded (s : TokenState) (now : Int) : TokenState :=
  if s.dailyResetTime < now then
    { s with dailyRequests := 0, dailyResetTime := truncDay now + nsPerDay }
  else s

/-- Model of `RateLimiter.calculateInterval`: `baseInterval := min + rng.Int63n(max-min)`
(the sample `r ∈ [0, max-min)` is a parameter) and
`jitter := Duration(float64(baseInterval) * jitterPercent * (rng.Float64()*2-1))`
(the sample `u = rng.Float64()*2-1 ∈ [-1,1)` is a parameter). -/
def calculateInterval (cfg : RateLimiterConfig) (r : Int) (u : ℚ) : Int :=
  let baseInterval := cfg.minTokenInterval + r
  baseInterval + truncRat ((baseInterval : ℚ) * cfg.jitterPercent * u)

/-- Model of `RateLimiter.WaitForToken`, sequential semantics.  `now` is the clock on
entry; sleeping until `CooldownEnd` resp. `LastRequest + interval` advances the
clock to exactly those instants.  Returns the updated state and the clock at
return.  Note: the function gates on the cooldown and on the inter-request
interval, then unconditionally updates `LastRequest`, `RequestCount` and
`DailyRequests`; it performs no check of `DailyRequests` against
`dailyMaxRequests`. -/
def waitForToken (cfg : RateLimiterConfig) (s0 : TokenState) (now : Int)
    (r : Int) (u : ℚ) : TokenState × Int :=
  let s := resetDailyIfNeeded s0 now
  let now1 := if now < s.cooldownEnd then s.cooldownEnd else now
  let interval := calculateInterval cfg r u
  let nextAllowedTime := s.lastRequest + interval
  let now2 := if now1 < nextAllowedTime then nextAllowedTime else now1
  ({ s with lastRequest := now2
            requestCount := s.requestCount + 1
            dailyRequests := s.dailyRequests + 1 }, now2)

/-- Model of `RateLimiter.calculateBackoff`:
`backoff := float64(base) * pow(multiplier, failCount-1)`, plus jitter
`backoff * jitterPercent * u` with `u = rng.Float64()*2-1`, converted to a
`Duration` (truncation) and capped at `backoffMax`. -/
def calculateBackoff (cfg : RateLimiterConfig) (failCount : Int) (u : ℚ) : Int :=
  if failCount ≤ 0 then 0
  else
    let backoff : ℚ := (cfg.backoffBase : ℚ) * cfg.backoffMultiplier ^ (failCount - 1).toNat
    let withJitter : ℚ := backoff + backoff * cfg.jitterPercent * u
    if cfg.backoffMax < truncRat withJitter then cfg.backoffMax else truncRat withJitter

/-- Model of `RateLimiter.MarkTokenFailed`: increment `FailCount`, set `CooldownEnd` to
`now + calculateBackoff(state.FailCount)` (the already-incremented count). -/
def markTokenFailed (cfg : RateLimiterConfig) (s : TokenState) (now : Int)
    (u : ℚ) : TokenState :=
  { s with failCount := s.failCount + 1
           cooldownEnd := now + calculateBackoff cfg (s.failCount + 1) u }

/-- Does `needle` occur at the head of `hay`? (byte/char-wise prefix test,
the inner loop of Go `strings.Contains`). -/
def matchAt : List Char → List Char → Bool
  | [], _ => true
  | _ :: _, [] => false
  | a :: as, b :: bs => a == b && matchAt as bs

/-- Go `strings.Contains hay needle`: `needle` occurs contiguously in `hay`.
For ASCII needles this byte-level test coincides with the char-level one. -/
def containsSub (hay needle : List Char) : Bool :=
  match hay with
  | [] => matchAt needle []
  | _ :: t => matchAt needle hay || containsSub t needle

/-- Go `strings.ToLower`, restricted to ASCII case mapping (every keyword the
limiter matches against is ASCII). -/
def goToLower (s : String) : List Char := s.data.map Char.toLower

/-- The fixed keyword list of `RateLimiter.CheckAndMarkSuspended`. -/
def suspendKeywords : List String :=
  ["suspended", "banned", "disabled", "account has been",
   "access denied", "rate limit exceeded", "too many requests", "quota exceeded"]

/-- Model of `RateLimiter.CheckAndMarkSuspended`: lower the message; if any keyword is
contained, mark the key's state suspended (recording time and full message)
and set `CooldownEnd := now + suspendCooldown`, returning `true`; otherwise
return `false` and leave the state untouched. -/
def checkAndMarkSuspended (cfg : RateLimiterConfig) (s : TokenState) (now : Int)
    (errorMsg : String) : Bool × TokenState :=
  if suspendKeywords.any (fun k => containsSub (goToLower errorMsg) k.data) then
    (true, { s with isSuspended := true
                    suspendedAt := now
                    suspendReason := errorMsg
                    cooldownEnd := now + cfg.suspendCooldown })
  else (false, s)

/-- Model of `KiroTokenData` (`internal/auth/kiro`).  The Go struct stores `ExpiresAt`
as an RFC3339 string; here it is the parsed instant, with `none` standing for
the empty or unparseable string (`ParseExpiresAt`'s zero time). -/
structure KiroTokenData where
  accessToken : String
  refreshToken : String
  profileArn : String
  expiresAt : Option Int
  authMethod : String
  provider : String
  region : String
deriving Repr, DecidableEq

/-- Model of `RefreshResult` from the Kiro refresh utilities. -/
structure RefreshResult where
  tokenData : Option KiroTokenData
  error : Option String
  usedFallback : Bool
deriving Repr, DecidableEq

/-- Model of `RefreshWithGracefulDegradation`: run the refresh attempt (its outcome is
the parameter `refreshOutcome`); on success return the new data; on failure
fall back to the existing token when it is non-empty and not yet expired
(`now.Before(expiresAt)`), otherwise surface an error. -/
def refreshWithGracefulDegradation (refreshOutcome : Except String KiroTokenData)
    (existingAccessToken : String) (expiresAt : Int) (now : Int) : RefreshResult :=
  match refreshOutcome with
  | .ok d => { tokenData := some d, error := none, usedFallback := false }
  | .error e =>
    if existingAccessToken ≠ "" ∧ now < expiresAt then
      { tokenData := some
          { accessToken := existingAccessToken
            refreshToken := ""
            profileArn := ""
            expiresAt := some expiresAt
            authMethod := ""
            provider := ""
            region := "" }
        error := none
        usedFallback := true }
    else
      { tokenData := none
        error := some ("token refresh failed and existing token is expired: " ++ e)
        usedFallback := false }

/-- Model of `IsTokenExpiringSoon`: a zero threshold defaults to 5 minutes; the test is
`now.Add(threshold).After(expiresAt)`. -/
def isTokenExpiringSoon (now expiresAt threshold : Int) : Bool :=
  let t := if threshold = 0 then 5 * nsPerMin else threshold
  decide (expiresAt < now + t)

/-- Model of `IsTokenExpired`: `now.After(expiresAt)`. -/
def isTokenExpired (now expiresAt : Int) : Bool := decide (expiresAt < now)

/-- Model of `RefreshConfig` from the Kiro refresh utilities. -/
structure RefreshConfig where
  maxRetries : Int
  retryDelay : Int
  refreshThreshold : Int
  enableGracefulDegradation : Bool
deriving Repr, DecidableEq

/-- Model of `DefaultRefreshConfig()`. -/
def defaultRefreshConfig : RefreshConfig :=
  { maxRetries := 1
    retryDelay := nsPerSec
    refreshThreshold := 5 * nsPerMin
    enableGracefulDegradation := true }

/-- Model of `Token` from `internal/auth/kiro/background_refresh.go`. -/
structure Token where
  id : String
  accessToken : String
  refreshToken : String
  expiresAt : Int
  lastVerified : Int
  clientID : String
  clientSecret : String
  authMethod : String
  provider : String
  startURL : String
  region : String
deriving Repr, DecidableEq

/-- Observable outcome of one `BackgroundRefresher.refreshSingle` call: the
token as left in memory, whether `tokenRepo.UpdateToken` was called, and
whether the `onTokenRefreshed` callback was invoked. -/
structure RefreshSingleResult where
  token : Token
  updateCalled : Bool
  callbackInvoked : Bool
deriving Repr, DecidableEq

/-- Model of `BackgroundRefresher.refreshSingle`.  The provider-specific network call is
the parameter `refreshOutcome`; `updateOk` is whether `UpdateToken` would
succeed, `hasCallback` whether an `onTokenRefreshed` callback is registered.
On a refresh error: log and return (nothing touched).  On fallback: only
`LastVerified` is set, no `UpdateToken`, no callback.  On success: copy the
new fields (`RefreshToken` and `ExpiresAt` only when non-empty/parseable),
persist, and invoke the callback only when persisting succeeded. -/
def refreshSingle (token : Token) (refreshOutcome : Except String KiroTokenData)
    (updateOk : Bool) (hasCallback : Bool) (now : Int) : RefreshSingleResult :=
  let result := refreshWithGracefulDegradation refreshOutcome token.accessToken token.expiresAt now
  match result.error, result.tokenData with
  | some _, _ => { token := token, updateCalled := false, callbackInvoked := false }
  | none, none => { token := token, updateCalled := false, callbackInvoked := false }
  | none, some d =>
    if result.usedFallback then
      { token := { token with lastVerified := now }
        updateCalled := false
        callbackInvoked := false }
    else
      { token := { token with
          accessToken := d.accessToken
          refreshToken := if d.refreshToken ≠ "" then d.refreshToken else token.refreshToken
          lastVerified := now
          expiresAt := match d.expiresAt with
            | some e => e
            | none => token.expiresAt }
        updateCalled := true
        callbackInvoked := updateOk && hasCallback }

/-- The shared `ExpiresIn` validation fragment of `exchangeCodeForToken`,
`RefreshTokenWithFingerprint` (`oauth.go`) and `RefreshSocialToken`
(`background_refresh.go`): `if expiresIn <= 0 { expiresIn = 3600 }`, then
`expiresAt := now.Add(Duration(expiresIn) * time.Second)`. -/
def kiroTokenExpiry (now expiresIn : Int) : Int :=
  let e := if expiresIn ≤ 0 then 3600 else expiresIn
  now + e * nsPerSec

/-- Model of `pollInterval = 5 * time.Second` (`sso_oidc.go`). -/
def pollIntervalNs : Int := 5 * nsPerSec

/-- Outcome of one `CreateToken` poll as classified by `LoginWithBuilderID`:
a token response, `ErrAuthorizationPending`, `ErrSlowDown`, or any other
error. -/
inductive PollResponse where
  | token (accessToken : String)
  | pending
  | slowDown
  | failure
deriving Repr, DecidableEq

/-- Terminal outcome of the device-code polling loop. -/
inductive LoginResult where
  | success (accessToken : String)
  | failed
  | timedOut
deriving Repr, DecidableEq

/-- The polling loop of `LoginWithBuilderID` (step 4).  `f j` is the outcome
of the `(j+1)`-th `CreateToken` call; `fuel` bounds the number of iterations
modelled (`none` = the run needs more iterations than modelled).  Each
iteration: check `time.Now().Before(deadline)`; wait `interval`
(`<-time.After(interval)`, advancing the clock); poll; on
`ErrAuthorizationPending` continue unchanged, on `ErrSlowDown` continue with
`interval += 5 * time.Second`, on any other error return it, on success return
the token; once the deadline check fails, return `authorization timed out`. -/
def pollLoop (f : Nat → PollResponse) (i : Nat) (fuel : Nat)
    (now interval deadline : Int) : Option LoginResult :=
  match fuel with
  | 0 => none
  | fuel + 1 =>
    if now < deadline then
      let now1 := now + interval
      match f i with
      | .token t => some (.success t)
      | .pending => pollLoop f (i + 1) fuel now1 interval deadline
      | .slowDown => pollLoop f (i + 1) fuel now1 (interval + 5 * nsPerSec) deadline
      | .failure => some .failed
    else some .timedOut

/-- Model of `LoginWithBuilderID`'s initial interval: `interval := pollInterval`, then
`if authResp.Interval > 0 { interval = Duration(authResp.Interval) * Second }`. -/
def initialPollInterval (serverInterval : Int) : Int :=
  if 0 < serverInterval then serverInterval * nsPerSec else pollIntervalNs

/-- Model of `deadline := time.Now().Add(Duration(authResp.ExpiresIn) * time.Second)`. -/
def loginDeadline (start expiresIn : Int) : Int := start + expiresIn * nsPerSec

/-- Model of `ModelInfo` as used by the availability handler (only the fields it
reads). -/
structure ModelInfo where
  id : String
  displayName : String
deriving Repr, DecidableEq

/-- Model of `ModelRegistration` as read by `GetUnavailableModels`: the per-client
quota-hit timestamps (Go `map[string]*time.Time`, `nil` entries skipped) and
the per-client suspension reasons. -/
structure ModelRegistration where
  info : ModelInfo
  quotaExceededClients : List (String × Int)
  suspendedClients : List (String × String)
  lastUpdated : Int
deriving Repr, DecidableEq

/-- Model of `UnavailableModelInfo` from
`internal/api/handlers/management/model_availability.go`. -/
structure UnavailableModelInfo where
  modelID : String
  modelName : String
  provider : String
  clientID : String
  reason : String
  reasonText : String
  since : Int
deriving Repr, DecidableEq

/-- Model of `quotaExpiredDuration := 5 * time.Minute`. -/
def quotaExpiredDuration : Int := 5 * nsPerMin

/-- The handler's model-name fixup: start from `Info.DisplayName`, fall back
to `Info.ID` when the display name is empty. -/
def modelNameFor (info : ModelInfo) : String :=
  if info.displayName = "" then info.id else info.displayName

/-- The entries `GetUnavailableModels` emits for one registration's
`QuotaExceededClients` map: a client is listed with reason `"cooldown"` iff
`now.Sub(quotaTime) < quotaExpiredDuration`. -/
def quotaEntries (clientProvider : String → String) (modelID : String)
    (reg : ModelRegistration) (now : Int) : List UnavailableModelInfo :=
  reg.quotaExceededClients.filterMap fun q =>
    if now - q.2 < quotaExpiredDuration then
      some { modelID := modelID
             modelName := modelNameFor reg.info
             provider := clientProvider q.1
             clientID := q.1
             reason := "cooldown"
             reasonText := "配额超限冷却中"
             since := q.2 }
    else none

/-- The entries `GetUnavailableModels` emits for one registration's
`SuspendedClients` map: reason `"suspended"`, or `"quota_exceeded"` when the
stored reason string is exactly `"quota"`. -/
def suspendedEntries (clientProvider : String → String) (modelID : String)
    (reg : ModelRegistration) : List UnavailableModelInfo :=
  reg.suspendedClients.map fun sc =>
    let reasonText0 := if sc.2 = "" then "已暂停" else if sc.2 = "quota" then "配额超限暂停" else sc.2
    let suspendedReason := if sc.2 ≠ "" ∧ sc.2 = "quota" then "quota_exceeded" else "suspended"
    { modelID := modelID
      modelName := modelNameFor reg.info
      provider := clientProvider sc.1
      clientID := sc.1
      reason := suspendedReason
      reasonText := reasonText0
      since := reg.lastUpdated }

/-- Model of `Handler.GetUnavailableModels`: walk every registration and collect the
quota-cooldown and suspended entries.  The registry's stored state is read
only; nothing is cleared. -/
def getUnavailableModels (clientProvider : String → String)
    (models : List (String × ModelRegistration)) (now : Int) :
    List UnavailableModelInfo :=
  match models with
  | [] => []
  | (mid, reg) :: rest =>
      quotaEntries clientProvider mid reg now
        ++ suspendedEntries clientProvider mid reg
        ++ getUnavailableModels clientProvider rest now

/-! ## Helper lemmas -/

theorem truncRat_eq_floor (q : ℚ) (h : 0 ≤ q) : truncRat q = ⌊q⌋ := by
  rw [Rat.floor_def, truncRat,
    Int.tdiv_eq_ediv (Rat.num_nonneg.mpr h) (Int.natCast_nonneg _)]

theorem truncRat_le (q : ℚ) (h : 0 ≤ q) : (truncRat q : ℚ) ≤ q := by
  rw [truncRat_eq_floor q h]; exact Int.floor_le q

theorem lt_truncRat (q : ℚ) (h : 0 ≤ q) : q - 1 < (truncRat q : ℚ) := by
  rw [truncRat_eq_floor q h]; exact Int.sub_one_lt_floor q

theorem truncRat_intCast (n : Int) : truncRat (n : ℚ) = n := by
  simp [truncRat]

theorem matchAt_iff (n h : List Char) : matchAt n h = true ↔ n <+: h := by
  induction n generalizing h with
  | nil => simp [matchAt]
  | cons a as ih =>
    cases h with
    | nil => simp [matchAt]
    | cons b bs =>
      simp [matchAt, List.cons_prefix_cons, ih]

theorem containsSub_iff (h n : List Char) : containsSub h n = true ↔ n <:+: h := by
  induction h with
  | nil =>
    simp [containsSub, matchAt_iff]
  | cons a t ih =>
    simp [containsSub, matchAt_iff, ih, List.infix_cons_iff]

/-! ## Theorems about the embedded code -/

/-- C10: the shared `ExpiresIn` validation of the Kiro token constructors
(`exchangeCodeForToken`, `RefreshTokenWithFingerprint`, `RefreshSocialToken`):
a zero or negative `expiresIn` yields `expires_at = now + 1 hour`; a positive
one yields `expires_at = now + expiresIn seconds`. -/
theorem kiroTokenExpiry_default_one_hour (now expiresIn : Int) :
    (expiresIn ≤ 0 → kiroTokenExpiry now expiresIn = now + 3600 * nsPerSec) ∧
    (0 < expiresIn → kiroTokenExpiry now expiresIn = now + expiresIn * nsPerSec) := by
  refine ⟨fun h => ?_, fun h => ?_⟩
  · simp only [kiroTokenExpiry, if_pos h]
  · simp only [kiroTokenExpiry]
    rw [if_neg (by omega)]

/-- Witness for C10 at `expiresIn = 0` and `expiresIn = 60`. -/
theorem kiroTokenExpiry_default_one_hour_witness :
    kiroTokenExpiry 0 0 = 0 + 3600 * nsPerSec ∧
    kiroTokenExpiry 0 60 = 0 + 60 * nsPerSec :=
  ⟨(kiroTokenExpiry_default_one_hour 0 0).1 (by decide),
   (kiroTokenExpiry_default_one_hour 0 60).2 (by decide)⟩

/-- C2 counterexample: the claim puts the default refresh lead at 10 minutes;
in the code `DefaultRefreshConfig().RefreshThreshold` is 5 minutes, and at
`now = expires_at − 8 min` (within the claimed 10-minute lead)
`IsTokenExpiringSoon` with the default threshold reports `false`. -/
theorem refreshLead_counterexample :
    defaultRefreshConfig.refreshThreshold = 5 * nsPerMin ∧
    ¬ defaultRefreshConfig.refreshThreshold = 10 * nsPerMin ∧
    isTokenExpiringSoon 0 (8 * nsPerMin) 0 = false := by
  refine ⟨rfl, by decide, by decide⟩

/-- C2 (amended): the default refresh lead is 5 minutes:
`IsTokenExpiringSoon` with the zero (default) threshold is true exactly when
the current time is strictly past `expires_at − 5 min`, and
`DefaultRefreshConfig().RefreshThreshold = 5 min`. -/
theorem isTokenExpiringSoon_default_contract (now expiresAt : Int) :
    (isTokenExpiringSoon now expiresAt 0 = true ↔ expiresAt - 5 * nsPerMin < now) ∧
    defaultRefreshConfig.refreshThreshold = 5 * nsPerMin := by
  constructor
  · simp [isTokenExpiringSoon]
    omega
  · rfl

/-- Witness for C2's amended theorem at `now = 0`, `expiresAt = nsPerMin`. -/
theorem isTokenExpiringSoon_default_contract_witness :
    isTokenExpiringSoon 0 nsPerMin 0 = true :=
  ((isTokenExpiringSoon_default_contract 0 nsPerMin).1).mpr (by decide)

/-- C3: `RefreshWithGracefulDegradation` never surfaces an error while a
usable token exists: on refresh success it returns the new data; on refresh
failure with a non-empty, not-yet-expired existing token it returns that token
marked as fallback with no error; it returns an error (and no token) exactly
when the refresh fails and the existing token is empty or already expired. -/
theorem refreshWithGracefulDegradation_contract
    (tok : String) (expiresAt now : Int) (e : String) (d : KiroTokenData) :
    (refreshWithGracefulDegradation (.ok d) tok expiresAt now =
      { tokenData := some d, error := none, usedFallback := false }) ∧
    (tok ≠ "" → now < expiresAt →
      refreshWithGracefulDegradation (.error e) tok expiresAt now =
        { tokenData := some
            { accessToken := tok, refreshToken := "", profileArn := ""
              expiresAt := some expiresAt, authMethod := "", provider := ""
              region := "" }
          error := none, usedFallback := true }) ∧
    (tok = "" ∨ expiresAt ≤ now →
      (refreshWithGracefulDegradation (.error e) tok expiresAt now).tokenData = none ∧
      (refreshWithGracefulDegradation (.error e) tok expiresAt now).error =
        some ("token refresh failed and existing token is expired: " ++ e)) ∧
    ((refreshWithGracefulDegradation (.error e) tok expiresAt now).error = none ↔
      tok ≠ "" ∧ now < expiresAt) := by
  refine ⟨rfl, fun h1 h2 => ?_, fun h => ?_, ?_⟩
  · simp [refreshWithGracefulDegradation, h1, h2]
  · have hn : ¬ (tok ≠ "" ∧ now < expiresAt) := by
      rcases h with h | h
      · exact fun hc => hc.1 h
      · exact fun hc => absurd hc.2 (by omega)
    simp [refreshWithGracefulDegradation, hn]
  · by_cases hc : tok ≠ "" ∧ now < expiresAt
    · simp [refreshWithGracefulDegradation, hc]
    · simp [refreshWithGracefulDegradation, hc]

/-- Witness for C3: a successful refresh, a fallback, and an expired failure
at concrete inputs. -/
theorem refreshWithGracefulDegradation_contract_witness :
    (refreshWithGracefulDegradation (.error "boom") "tok" 10 5 =
      { tokenData := some
          { accessToken := "tok", refreshToken := "", profileArn := ""
            expiresAt := some 10, authMethod := "", provider := ""
            region := "" }
        error := none, usedFallback := true }) ∧
    ((refreshWithGracefulDegradation (.error "boom") "tok" 10 10).tokenData = none ∧
      (refreshWithGracefulDegradation (.error "boom") "tok" 10 10).error =
        some ("token refresh failed and existing token is expired: " ++ "boom")) :=
  ⟨(refreshWithGracefulDegradation_contract "tok" 10 5 "boom"
      ⟨"x", "", "", none, "", "", ""⟩).2.1 (by decide) (by decide),
   (refreshWithGracefulDegradation_contract "tok" 10 10 "boom"
      ⟨"x", "", "", none, "", "", ""⟩).2.2.1 (Or.inr (by decide))⟩

/-- C4: `CheckAndMarkSuspended` returns `true` and marks the key suspended
(setting the suspension time, the full message as reason, and a cooldown of
the default 1-hour suspend cooldown) exactly when the lowercased message
contains one of the eight fixed keywords; otherwise it returns `false` and
leaves the state unchanged. -/
theorem checkAndMarkSuspended_keyword_contract (s : TokenState) (now : Int)
    (msg : String) :
    ((checkAndMarkSuspended defaultRateLimiterConfig s now msg).1 = true ↔
      ∃ k ∈ suspendKeywords, k.data <:+: goToLower msg) ∧
    ((∃ k ∈ suspendKeywords, k.data <:+: goToLower msg) →
      checkAndMarkSuspended defaultRateLimiterConfig s now msg =
        (true, { s with isSuspended := true
                        suspendedAt := now
                        suspendReason := msg
                        cooldownEnd := now + nsPerHour })) ∧
    (¬ (∃ k ∈ suspendKeywords, k.data <:+: goToLower msg) →
      checkAndMarkSuspended defaultRateLimiterConfig s now msg = (false, s)) := by
  have key : (suspendKeywords.any fun k => containsSub (goToLower msg) k.data) = true ↔
      ∃ k ∈ suspendKeywords, k.data <:+: goToLower msg := by
    simp [List.any_eq_true, containsSub_iff]
  by_cases hb : (suspendKeywords.any fun k => containsSub (goToLower msg) k.data) = true
  · refine ⟨iff_of_true ?_ (key.mp hb), fun _ => ?_, fun hn => absurd (key.mp hb) hn⟩
    · simp [checkAndMarkSuspended, hb]
    · simp [checkAndMarkSuspended, hb, defaultRateLimiterConfig]
  · have hb' : (suspendKeywords.any fun k => containsSub (goToLower msg) k.data) = false :=
      Bool.eq_false_iff.mpr hb
    refine ⟨iff_of_false ?_ fun hex => hb (key.mpr hex),
      fun hex => absurd hex fun hex => hb (key.mpr hex), fun _ => ?_⟩
    · simp [checkAndMarkSuspended, hb']
    · simp [checkAndMarkSuspended, hb']

/-- Witness for C4: a message containing "suspended" (case-insensitively)
marks the state; a benign message does not. -/
theorem checkAndMarkSuspended_keyword_contract_witness :
    checkAndMarkSuspended defaultRateLimiterConfig
        ⟨0, 0, 0, 0, 0, 0, false, 0, ""⟩ 7 "Your account has been SUSPENDED" =
      (true, ⟨0, 0, 7 + nsPerHour, 0, 0, 0, true, 7, "Your account has been SUSPENDED"⟩) ∧
    checkAndMarkSuspended defaultRateLimiterConfig
        ⟨0, 0, 0, 0, 0, 0, false, 0, ""⟩ 7 "all good" =
      (false, ⟨0, 0, 0, 0, 0, 0, false, 0, ""⟩) := by
  constructor
  · have h := (checkAndMarkSuspended_keyword_contract
      ⟨0, 0, 0, 0, 0, 0, false, 0, ""⟩ 7 "Your account has been SUSPENDED").2.1
      (by decide)
    rw [h]
  · exact (checkAndMarkSuspended_keyword_contract
      ⟨0, 0, 0, 0, 0, 0, false, 0, ""⟩ 7 "all good").2.2 (by decide)

/-- C8: the daily counter resets only once the clock is strictly past the
stored boundary, to zero, with the boundary advanced to
`now.Truncate(24h) + 24h`; a fresh key gets that same boundary, which is the
upcoming multiple of 24 hours from the (UTC-based) zero time. -/
theorem dailyReset_utc_midnight (s : TokenState) (now : Int) :
    (s.dailyResetTime < now →
      resetDailyIfNeeded s now =
        { s with dailyRequests := 0, dailyResetTime := truncDay now + nsPerDay }) ∧
    (¬ s.dailyResetTime < now → resetDailyIfNeeded s now = s) ∧
    (newTokenState now).dailyResetTime = truncDay now + nsPerDay ∧
    nsPerDay ∣ truncDay now + nsPerDay ∧
    now < truncDay now + nsPerDay ∧
    truncDay now + nsPerDay ≤ now + nsPerDay := by
  have hpos : (0 : Int) < nsPerDay := by norm_num [nsPerDay, nsPerHour, nsPerMin, nsPerSec]
  have hmod1 : 0 ≤ now % nsPerDay := Int.emod_nonneg now (by omega)
  have hmod2 : now % nsPerDay < nsPerDay := Int.emod_lt_of_pos now hpos
  have htrunc : truncDay now = nsPerDay * (now / nsPerDay) := by
    have := Int.ediv_add_emod now nsPerDay
    unfold truncDay
    omega
  refine ⟨fun h => ?_, fun h => ?_, rfl, ?_, ?_, ?_⟩
  · simp [resetDailyIfNeeded, h]
  · simp [resetDailyIfNeeded, h]
  · exact ⟨now / nsPerDay + 1, by rw [htrunc]; ring⟩
  · unfold truncDay; omega
  · unfold truncDay; omega

/-- Witness for C8: a boundary in the past triggers a reset to the next
24-hour boundary; a boundary in the future leaves the state unchanged. -/
theorem dailyReset_utc_midnight_witness :
    resetDailyIfNeeded ⟨0, 0, 0, 0, 42, nsPerDay, false, 0, ""⟩ (nsPerDay + 5) =
      ⟨0, 0, 0, 0, 0, 2 * nsPerDay, false, 0, ""⟩ ∧
    resetDailyIfNeeded ⟨0, 0, 0, 0, 42, nsPerDay, false, 0, ""⟩ 5 =
      ⟨0, 0, 0, 0, 42, nsPerDay, false, 0, ""⟩ := by
  constructor
  · have h := (dailyReset_utc_midnight
      ⟨0, 0, 0, 0, 42, nsPerDay, false, 0, ""⟩ (nsPerDay + 5)).1 (by decide)
    rw [h]; decide
  · exact (dailyReset_utc_midnight
      ⟨0, 0, 0, 0, 42, nsPerDay, false, 0, ""⟩ 5).2.1 (by decide)

/-- C1 counterexample: the claim requires `WaitForToken` to return only when
`daily_requests` is strictly below the daily maximum (default 500); in the
code the function performs no daily-cap check: with the counter already at
500 it admits anyway, incrementing the counters. -/
theorem waitForToken_counterexample :
    defaultRateLimiterConfig.dailyMaxRequests = 500 ∧
    (waitForToken defaultRateLimiterConfig
        ⟨0, 7, 0, 0, 500, 2 * nsPerDay, false, 0, ""⟩ nsPerDay 0 0).1.dailyRequests = 501 ∧
    (waitForToken defaultRateLimiterConfig
        ⟨0, 7, 0, 0, 500, 2 * nsPerDay, false, 0, ""⟩ nsPerDay 0 0).1.requestCount = 8 ∧
    (waitForToken defaultRateLimiterConfig
        ⟨0, 7, 0, 0, 500, 2 * nsPerDay, false, 0, ""⟩ nsPerDay 0 0).1.lastRequest =
      (waitForToken defaultRateLimiterConfig
        ⟨0, 7, 0, 0, 500, 2 * nsPerDay, false, 0, ""⟩ nsPerDay 0 0).2 := by
  refine ⟨rfl, ?_, ?_, ?_⟩ <;>
    simp [waitForToken, resetDailyIfNeeded, calculateInterval, truncRat,
      defaultRateLimiterConfig, nsPerDay, nsPerHour, nsPerMin, nsPerSec]

/-- C1 (amended): `WaitForToken` returns only once the clock is at or past
the key's `cooldown_end` and at or past `last_request` plus the jittered
interval; on admission it sets `last_request` to the return instant and
increments `request_count` and `daily_requests` (the latter after the daily
reset, when due).  It performs no check of `daily_requests` against the
daily maximum. -/
theorem waitForToken_admission_contract (cfg : RateLimiterConfig)
    (s0 : TokenState) (now r : Int) (u : ℚ) :
    s0.cooldownEnd ≤ (waitForToken cfg s0 now r u).2 ∧
    s0.lastRequest + calculateInterval cfg r u ≤ (waitForToken cfg s0 now r u).2 ∧
    now ≤ (waitForToken cfg s0 now r u).2 ∧
    (waitForToken cfg s0 now r u).1.lastRequest = (waitForToken cfg s0 now r u).2 ∧
    (waitForToken cfg s0 now r u).1.requestCount = s0.requestCount + 1 ∧
    (waitForToken cfg s0 now r u).1.dailyRequests =
      (if s0.dailyResetTime < now then 0 else s0.dailyRequests) + 1 ∧
    (waitForToken cfg s0 now r u).1.cooldownEnd = s0.cooldownEnd ∧
    (waitForToken cfg s0 now r u).1.failCount = s0.failCount := by
  unfold waitForToken resetDailyIfNeeded
  by_cases h1 : s0.dailyResetTime < now <;>
    simp only [h1, if_true, if_false, ite_true, ite_false] <;>
    split_ifs <;> simp_all <;> omega

/-- C5: `MarkTokenFailed` increments `fail_count` by exactly one and sets
`cooldown_end` to now plus the backoff `calculateBackoff`, which is the base
30 s times `1.5^(fail_count − 1)` (for the incremented count) adjusted by a
jitter of at most ±30 % (up to the one-nanosecond float-to-duration
truncation) and capped at the 5-minute maximum. -/
theorem markTokenFailed_backoff_contract (s : TokenState) (now : Int) (u : ℚ)
    (hu1 : -1 ≤ u) (hu2 : u ≤ 1) (hfc : 0 ≤ s.failCount) :
    (markTokenFailed defaultRateLimiterConfig s now u).failCount = s.failCount + 1 ∧
    (markTokenFailed defaultRateLimiterConfig s now u).cooldownEnd =
      now + calculateBackoff defaultRateLimiterConfig (s.failCount + 1) u ∧
    calculateBackoff defaultRateLimiterConfig (s.failCount + 1) u ≤ 5 * nsPerMin ∧
    (calculateBackoff defaultRateLimiterConfig (s.failCount + 1) u = 5 * nsPerMin ∨
      ((7 : ℚ) / 10 * ((30 * nsPerSec : Int) * ((3 : ℚ) / 2) ^ s.failCount.toNat) - 1 ≤
        (calculateBackoff defaultRateLimiterConfig (s.failCount + 1) u : ℚ) ∧
       (calculateBackoff defaultRateLimiterConfig (s.failCount + 1) u : ℚ) ≤
        (13 : ℚ) / 10 * ((30 * nsPerSec : Int) * ((3 : ℚ) / 2) ^ s.failCount.toNat))) := by
  have hne : ¬ (s.failCount + 1 ≤ 0) := by omega
  have htn : (s.failCount + 1 - 1).toNat = s.failCount.toNat := by omega
  set B : ℚ := ((30 * nsPerSec : Int) : ℚ) * ((3 : ℚ) / 2) ^ s.failCount.toNat with hB
  have hBpos : 0 < B := by
    rw [hB]
    have : (0 : ℚ) < ((30 * nsPerSec : Int) : ℚ) := by
      norm_num [nsPerSec]
    positivity
  have hexp : calculateBackoff defaultRateLimiterConfig (s.failCount + 1) u =
      (if (5 * nsPerMin : Int) < truncRat (B + B * (3 / 10) * u)
        then (5 * nsPerMin : Int) else truncRat (B + B * (3 / 10) * u)) := by
    simp only [calculateBackoff, defaultRateLimiterConfig, if_neg hne, htn, hB]
  have hjlow : (7 : ℚ) / 10 * B ≤ B + B * (3 / 10) * u := by nlinarith
  have hjhigh : B + B * (3 / 10) * u ≤ (13 : ℚ) / 10 * B := by nlinarith
  have hwn : (0 : ℚ) ≤ B + B * (3 / 10) * u := by nlinarith
  have ht1 : (truncRat (B + B * (3 / 10) * u) : ℚ) ≤ B + B * (3 / 10) * u :=
    truncRat_le _ hwn
  have ht2 : B + B * (3 / 10) * u - 1 < (truncRat (B + B * (3 / 10) * u) : ℚ) :=
    lt_truncRat _ hwn
  have hle : calculateBackoff defaultRateLimiterConfig (s.failCount + 1) u ≤ 5 * nsPerMin := by
    rw [hexp]
    split_ifs with hcap
    · exact le_refl _
    · omega
  have hbnd : calculateBackoff defaultRateLimiterConfig (s.failCount + 1) u = 5 * nsPerMin ∨
      ((7 : ℚ) / 10 * B - 1 ≤ (calculateBackoff defaultRateLimiterConfig (s.failCount + 1) u : ℚ) ∧
        (calculateBackoff defaultRateLimiterConfig (s.failCount + 1) u : ℚ) ≤ (13 : ℚ) / 10 * B) := by
    rw [hexp]
    split_ifs with hcap
    · exact Or.inl rfl
    · exact Or.inr ⟨by nlinarith, by nlinarith⟩
  exact ⟨rfl, rfl, hle, hbnd⟩

/-- Witness for C5 at `fail_count = 0`, `u = 0` (no jitter): the new cooldown
is exactly 30 s. -/
theorem markTokenFailed_backoff_contract_witness :
    (markTokenFailed defaultRateLimiterConfig ⟨0, 0, 0, 0, 0, 0, false, 0, ""⟩ 0 0).failCount =
      0 + 1 ∧
    calculateBackoff defaultRateLimiterConfig (0 + 1) 0 ≤ 5 * nsPerMin := by
  have h := markTokenFailed_backoff_contract ⟨0, 0, 0, 0, 0, 0, false, 0, ""⟩ 0 0
    (by norm_num) (by norm_num) (by decide)
  exact ⟨h.1, h.2.2.1⟩

/-- C9: on graceful-degradation fallback, `refreshSingle` changes only the
in-memory `LastVerified`: `AccessToken`, `RefreshToken` and `ExpiresAt` keep
their values, `UpdateToken` is not called and the `onTokenRefreshed` callback
is not invoked; persistence or callback happens only when the provider
refresh genuinely succeeded. -/
theorem refreshSingle_fallback_frame (token : Token) (e : String)
    (updateOk hasCallback : Bool) (now : Int)
    (h1 : token.accessToken ≠ "") (h2 : now < token.expiresAt) :
    refreshSingle token (.error e) updateOk hasCallback now =
      { token := { token with lastVerified := now }
        updateCalled := false
        callbackInvoked := false } ∧
    (refreshSingle token (.error e) updateOk hasCallback now).token.accessToken =
      token.accessToken ∧
    (refreshSingle token (.error e) updateOk hasCallback now).token.refreshToken =
      token.refreshToken ∧
    (refreshSingle token (.error e) updateOk hasCallback now).token.expiresAt =
      token.expiresAt ∧
    (∀ (ro : Except String KiroTokenData) (uo hc : Bool),
      ((refreshSingle token ro uo hc now).updateCalled = true ∨
        (refreshSingle token ro uo hc now).callbackInvoked = true) →
      ∃ d, ro = .ok d) := by
  have hfall : refreshSingle token (.error e) updateOk hasCallback now =
      { token := { token with lastVerified := now }
        updateCalled := false
        callbackInvoked := false } := by
    simp [refreshSingle, refreshWithGracefulDegradation, h1, h2]
  refine ⟨hfall, by rw [hfall], by rw [hfall], by rw [hfall], fun ro uo hc hor => ?_⟩
  match ro with
  | .ok d => exact ⟨d, rfl⟩
  | .error e' =>
    exfalso
    by_cases hc2 : token.accessToken ≠ "" ∧ now < token.expiresAt
    · have : refreshSingle token (.error e') uo hc now =
          { token := { token with lastVerified := now }
            updateCalled := false
            callbackInvoked := false } := by
        simp [refreshSingle, refreshWithGracefulDegradation, hc2.1, hc2.2]
      rw [this] at hor
      simp at hor
    · have : refreshSingle token (.error e') uo hc now =
          { token := token, updateCalled := false, callbackInvoked := false } := by
        simp [refreshSingle, refreshWithGracefulDegradation, hc2]
      rw [this] at hor
      simp at hor

/-- Witness for C9 at a concrete token still valid for 10 time units. -/
theorem refreshSingle_fallback_frame_witness :
    refreshSingle ⟨"id1", "at1", "rt1", 20, 3, "", "", "social", "", "", ""⟩
        (.error "boom") true true 10 =
      { token := ⟨"id1", "at1", "rt1", 20, 10, "", "", "social", "", "", ""⟩
        updateCalled := false
        callbackInvoked := false } :=
  (refreshSingle_fallback_frame ⟨"id1", "at1", "rt1", 20, 3, "", "", "social", "", "", ""⟩
    "boom" true true 10 (by decide) (by decide)).1

theorem pollLoop_pending_timeout (f : Nat → PollResponse) (hf : ∀ j, f j = .pending)
    (interval : Int) (_hint : 0 < interval) :
    ∀ (fuel i : Nat) (now deadline : Int),
      deadline ≤ now + fuel * interval →
      pollLoop f i (fuel + 1) now interval deadline = some .timedOut := by
  intro fuel
  induction fuel with
  | zero =>
    intro i now deadline h
    have hnd : ¬ now < deadline := by
      push_cast at h
      omega
    simp [pollLoop, hnd]
  | succ n ih =>
    intro i now deadline h
    by_cases hlt : now < deadline
    · have hstep : deadline ≤ now + interval + (n : Int) * interval := by
        have hc : ((n + 1 : Nat) : Int) * interval = (n : Int) * interval + interval := by
          push_cast
          ring
        rw [hc] at h
        omega
      simp only [pollLoop, if_pos hlt, hf i]
      exact ih (i + 1) (now + interval) deadline hstep
    · simp [pollLoop, hlt]

/-- C6: the Builder ID / IDC device-code polling of `LoginWithBuilderID`:
the interval starts at 5 s unless the server supplies a positive `interval`;
the deadline is `start + expiresIn` seconds; per poll,
`authorization_pending` continues with the interval unchanged, `slow_down`
adds 5 s to the interval, any other error terminates with a failure, a token
response terminates with success; once the clock reaches the deadline the
loop returns the timed-out result — in particular a run of nothing but
`authorization_pending` answers always times out. -/
theorem builderID_device_polling_contract :
    pollIntervalNs = 5 * nsPerSec ∧
    (∀ si : Int, 0 < si → initialPollInterval si = si * nsPerSec) ∧
    (∀ si : Int, si ≤ 0 → initialPollInterval si = pollIntervalNs) ∧
    (∀ start expiresIn : Int, loginDeadline start expiresIn = start + expiresIn * nsPerSec) ∧
    (∀ (f : Nat → PollResponse) (i fuel : Nat) (now interval deadline : Int),
      ¬ now < deadline →
      pollLoop f i (fuel + 1) now interval deadline = some .timedOut) ∧
    (∀ (f : Nat → PollResponse) (i fuel : Nat) (now interval deadline : Int) (t : String),
      now < deadline → f i = .token t →
      pollLoop f i (fuel + 1) now interval deadline = some (.success t)) ∧
    (∀ (f : Nat → PollResponse) (i fuel : Nat) (now interval deadline : Int),
      now < deadline → f i = .failure →
      pollLoop f i (fuel + 1) now interval deadline = some .failed) ∧
    (∀ (f : Nat → PollResponse) (i fuel : Nat) (now interval deadline : Int),
      now < deadline → f i = .pending →
      pollLoop f i (fuel + 1) now interval deadline =
        pollLoop f (i + 1) fuel (now + interval) interval deadline) ∧
    (∀ (f : Nat → PollResponse) (i fuel : Nat) (now interval deadline : Int),
      now < deadline → f i = .slowDown →
      pollLoop f i (fuel + 1) now interval deadline =
        pollLoop f (i + 1) fuel (now + interval) (interval + 5 * nsPerSec) deadline) ∧
    (∀ f : Nat → PollResponse, (∀ j, f j = .pending) →
      ∀ interval : Int, 0 < interval →
      ∀ (fuel i : Nat) (now deadline : Int), deadline ≤ now + fuel * interval →
      pollLoop f i (fuel + 1) now interval deadline = some .timedOut) := by
  refine ⟨rfl, fun si h => ?_, fun si h => ?_, fun s e => rfl, ?_, ?_, ?_, ?_, ?_,
    fun f hf interval hint => pollLoop_pending_timeout f hf interval hint⟩
  · simp [initialPollInterval, h]
  · have hns : ¬ 0 < si := by omega
    simp [initialPollInterval, hns]
  · intro f i fuel now interval deadline h
    simp [pollLoop, h]
  · intro f i fuel now interval deadline t h1 h2
    simp [pollLoop, h1, h2]
  · intro f i fuel now interval deadline h1 h2
    simp [pollLoop, h1, h2]
  · intro f i fuel now interval deadline h1 h2
    simp [pollLoop, h1, h2]
  · intro f i fuel now interval deadline h1 h2
    simp [pollLoop, h1, h2]

/-- Witness for C6: concrete runs of the polling loop. -/
theorem builderID_device_polling_contract_witness :
    initialPollInterval 10 = 10 * nsPerSec ∧
    initialPollInterval 0 = pollIntervalNs ∧
    pollLoop (fun _ => .pending) 0 3 0 pollIntervalNs (2 * pollIntervalNs) =
      some .timedOut ∧
    pollLoop (fun _ => .failure) 0 1 0 pollIntervalNs (2 * pollIntervalNs) =
      some .failed := by
  refine ⟨builderID_device_polling_contract.2.1 10 (by decide),
    builderID_device_polling_contract.2.2.1 0 (by decide), ?_, ?_⟩
  · exact builderID_device_polling_contract.2.2.2.2.2.2.2.2.2
      (fun _ => .pending) (fun _ => rfl) pollIntervalNs (by decide)
      2 0 0 (2 * pollIntervalNs) (by decide)
  · exact builderID_device_polling_contract.2.2.2.2.2.2.1
      (fun _ => .failure) 0 0 0 pollIntervalNs (2 * pollIntervalNs) (by decide) rfl

theorem mem_getUnavailableModels (cp : String → String)
    (models : List (String × ModelRegistration)) (now : Int) (e : UnavailableModelInfo) :
    e ∈ getUnavailableModels cp models now ↔
      ∃ p ∈ models, e ∈ quotaEntries cp p.1 p.2 now ∨ e ∈ suspendedEntries cp p.1 p.2 := by
  induction models with
  | nil => simp [getUnavailableModels]
  | cons hd tl ih =>
    obtain ⟨mid, reg⟩ := hd
    simp [getUnavailableModels, ih, or_assoc]

theorem mem_quotaEntries (cp : String → String) (mid : String)
    (reg : ModelRegistration) (now : Int) (e : UnavailableModelInfo) :
    e ∈ quotaEntries cp mid reg now ↔
      ∃ q ∈ reg.quotaExceededClients, now - q.2 < quotaExpiredDuration ∧
        e = { modelID := mid
              modelName := modelNameFor reg.info
              provider := cp q.1
              clientID := q.1
              reason := "cooldown"
              reasonText := "配额超限冷却中"
              since := q.2 } := by
  simp only [quotaEntries, List.mem_filterMap]
  constructor
  · rintro ⟨q, hq, hsome⟩
    by_cases hcond : now - q.2 < quotaExpiredDuration
    · rw [if_pos hcond] at hsome
      exact ⟨q, hq, hcond, (Option.some_injective _ hsome).symm⟩
    · rw [if_neg hcond] at hsome
      exact absurd hsome (by simp)
  · rintro ⟨q, hq, hcond, he⟩
    exact ⟨q, hq, by rw [if_pos hcond, he]⟩

theorem suspendedEntries_reason (cp : String → String) (mid : String)
    (reg : ModelRegistration) (e : UnavailableModelInfo)
    (h : e ∈ suspendedEntries cp mid reg) :
    e.reason = "suspended" ∨ e.reason = "quota_exceeded" := by
  simp only [suspendedEntries, List.mem_map] at h
  obtain ⟨sc, _, he⟩ := h
  subst he
  by_cases hq : sc.2 ≠ "" ∧ sc.2 = "quota"
  · right
    simp [hq]
  · left
    simp [hq]

/-- C7: a (client, model) pair recorded as quota-exceeded at `t0` appears in
the management availability listing with reason `"cooldown"` exactly while
`now − t0 < 5 min`; from `t0 + 5 min` on the entry is omitted, purely by the
read-side wall-clock comparison (the listing never mutates the registry). -/
theorem quota_cooldown_read_side (cp : String → String)
    (models : List (String × ModelRegistration)) (now : Int)
    (mid : String) (reg : ModelRegistration) (cid : String) (t0 : Int)
    (hmem : (mid, reg) ∈ models) (hq : (cid, t0) ∈ reg.quotaExceededClients) :
    ((∃ e ∈ getUnavailableModels cp models now,
        e.modelID = mid ∧ e.clientID = cid ∧ e.reason = "cooldown" ∧ e.since = t0) ↔
      now - t0 < quotaExpiredDuration) ∧
    quotaExpiredDuration = 5 * nsPerMin := by
  refine ⟨⟨?_, ?_⟩, rfl⟩
  · rintro ⟨e, hel, hmid, hcid, hreason, hsince⟩
    rw [mem_getUnavailableModels] at hel
    obtain ⟨p, _, hcase | hcase⟩ := hel
    · rw [mem_quotaEntries] at hcase
      obtain ⟨q, _, hcond, he⟩ := hcase
      have : e.since = q.2 := by rw [he]
      omega
    · rcases suspendedEntries_reason cp p.1 p.2 e hcase with h | h <;>
        rw [hreason] at h <;> simp at h
  · intro hcond
    refine ⟨{ modelID := mid
              modelName := modelNameFor reg.info
              provider := cp cid
              clientID := cid
              reason := "cooldown"
              reasonText := "配额超限冷却中"
              since := t0 }, ?_, rfl, rfl, rfl, rfl⟩
    rw [mem_getUnavailableModels]
    refine ⟨(mid, reg), hmem, Or.inl ?_⟩
    rw [mem_quotaEntries]
    exact ⟨(cid, t0), hq, hcond, rfl⟩

/-- Witness for C7: one registration, one quota hit at `t0 = 0`; listed with
reason "cooldown" at `now = 1 min`, gone at `now = 5 min`. -/
theorem quota_cooldown_read_side_witness :
    (∃ e ∈ getUnavailableModels (fun _ => "kiro")
        [("m1", ⟨⟨"m1", "Model One"⟩, [("c1", 0)], [], 0⟩)] nsPerMin,
      e.modelID = "m1" ∧ e.clientID = "c1" ∧ e.reason = "cooldown" ∧ e.since = 0) ∧
    ¬ (∃ e ∈ getUnavailableModels (fun _ => "kiro")
        [("m1", ⟨⟨"m1", "Model One"⟩, [("c1", 0)], [], 0⟩)] (5 * nsPerMin),
      e.modelID = "m1" ∧ e.clientID = "c1" ∧ e.reason = "cooldown" ∧ e.since = 0) := by
  constructor
  · exact (quota_cooldown_read_side (fun _ => "kiro")
      [("m1", ⟨⟨"m1", "Model One"⟩, [("c1", 0)], [], 0⟩)] nsPerMin
      "m1" ⟨⟨"m1", "Model One"⟩, [("c1", 0)], [], 0⟩ "c1" 0
      (by decide) (by decide)).1.mpr (by decide)
  · intro hex
    have := (quota_cooldown_read_side (fun _ => "kiro")
      [("m1", ⟨⟨"m1", "Model One"⟩, [("c1", 0)], [], 0⟩)] (5 * nsPerMin)
      "m1" ⟨⟨"m1", "Model One"⟩, [("c1", 0)], [], 0⟩ "c1" 0
      (by decide) (by decide)).1.mp hex
    revert this
    decide

end KiroModel
